import Mathlib

/-!
Verification development for the `acero-delta-lake-streaming` news pipeline.

Shallow embedding of the Python sources:
  * `src/news_insights/collector.py` (class `NewsCollector`): state store,
    feed ingestion (`download_entries`), per-feed loop
    (`create_press_releases_sources`), curation (`curate_news`), actor
    extraction (`extract_actors`), storage (`store`) and the driver
    (`process_feeds`).
  * `src/news_processor.py` (`Actor`, `EventResponse`, `NewsProcessor.analyze_text`).

External effects are made explicit:
  * the state file on disk is a `StateFile` value threaded through the calls;
  * the feed fetch is an input (`Except String (List FeedEntry)`: a raised
    fetch error or the parsed entries);
  * the LLM enrichment call (`NewsProcessor.analyze_text` plus any exception
    raised by the underlying client) is an oracle
    `String → Except String (Option EventResponse)`;
  * a Delta Lake append either succeeds or raises; each append outcome is a
    `Bool` supplied by the environment.
-/

namespace NewsPipeline

/-- Python `time.struct_time`-like value as consumed by
`datetime(*time_struct[:6])` in `collector.py` (`time_to_ts`): either absent
(`feedparser` gave no `published_parsed`, so subscripting raises) or a list of
integer fields. -/
abbrev TimeStruct : Type := Option (List Int)

/-- The value held by `datetime(*time_struct[:6])`: year, month, day, hour,
minute, second (microsecond timestamps in the table keep exactly these
fields). -/
structure DateTime6 where
  year : Int
  month : Int
  day : Int
  hour : Int
  minute : Int
  second : Int
deriving DecidableEq, Repr

/-- Gregorian leap-year rule used by Python `datetime`'s day-range check. -/
def isLeapYear (y : Int) : Bool :=
  (y % 4 == 0 && y % 100 != 0) || y % 400 == 0

/-- Number of days in a month, as validated by the `datetime` constructor. -/
def daysInMonth (y m : Int) : Int :=
  if m == 2 then (if isLeapYear y then 29 else 28)
  else if m == 4 || m == 6 || m == 9 || m == 11 then 30
  else 31

/-- Embeds `NewsCollector.time_to_ts` (collector.py:65-72): builds
`datetime(*time_struct[:6])` and converts to a µs timestamp scalar. A missing
struct raises `TypeError`; fewer than three fields raises `TypeError`; fields
out of `datetime`'s ranges raise `ValueError`. The `except` clause logs and
re-raises, so every failure propagates to the caller. -/
def time_to_ts (time_struct : TimeStruct) : Except String DateTime6 :=
  match time_struct with
  | none => .error "TypeError: NoneType is not subscriptable"
  | some l =>
    match l.take 6 with
    | y :: m :: d :: rest =>
      let hh := rest.getD 0 0
      let mi := rest.getD 1 0
      let ss := rest.getD 2 0
      if 1 ≤ y && y ≤ 9999 && 1 ≤ m && m ≤ 12 && 1 ≤ d && d ≤ daysInMonth y m
          && 0 ≤ hh && hh ≤ 23 && 0 ≤ mi && mi ≤ 59 && 0 ≤ ss && ss ≤ 59 then
        .ok ⟨y, m, d, hh, mi, ss⟩
      else
        .error "ValueError: field out of range"
    | _ => .error "TypeError: missing required datetime argument"

/-- One entry of a parsed feed, with the attributes `download_entries` reads:
`guid`, `title`, `description`, `link`, `published_parsed`, and the optional
`media_thumbnail` url (`row.get('media_thumbnail', [{'url': None}])[0]['url']`). -/
structure FeedEntry where
  guid : String
  title : String
  description : String
  link : String
  published_parsed : TimeStruct
  media_thumbnail : Option String
deriving DecidableEq, Repr

/-- One row of the raw news table built by `download_entries`
(collector.py:103-111): columns title, published_time, description, link, id,
thumbnail_url, category. -/
structure RawNewsRecord where
  title : String
  published_time : DateTime6
  description : String
  link : String
  id : String
  thumbnail_url : Option String
  category : String
deriving DecidableEq, Repr

/-- Column names of the raw news table, in the order of the `pa.table` call at
collector.py:103-111. -/
def rawTableColumns : List String :=
  ["title", "published_time", "description", "link", "id", "thumbnail_url", "category"]

/-- The state file on disk: `none` = file absent (`FileNotFoundError`),
`some none` = present but malformed JSON (`json.JSONDecodeError`),
`some (some ids)` = a valid JSON array of strings. -/
abbrev StateFile : Type := Option (Option (List String))

/-- Embeds `NewsCollector.load_state` (collector.py:45-55): a missing file and
a malformed file both yield the empty list; otherwise the stored array. -/
def load_state (st : StateFile) : List String :=
  match st with
  | none => []
  | some none => []
  | some (some ids) => ids

/-- The underlying `json.dump(state, f)` write inside `save_state`: succeeds
and replaces the file contents, or raises `IOError` (outcome chosen by the
environment flag `io_ok`). -/
def write_state_file (ids : List String) (io_ok : Bool) : Except String StateFile :=
  if io_ok then .ok (some (some ids)) else .error "IOError"

/-- Embeds `NewsCollector.save_state` (collector.py:57-63): performs the write,
and on `IOError` logs and returns normally, leaving the file as it was. -/
def save_state (ids : List String) (st : StateFile) (io_ok : Bool) : StateFile :=
  match write_state_file ids io_ok with
  | .ok st' => st'
  | .error _ => st

/-- The list comprehension at collector.py:89:
`[row for row in feed.entries if row.guid not in processed_ids]`. -/
def unprocessed_of (processed_ids : List String) (entries : List FeedEntry) :
    List FeedEntry :=
  entries.filter (fun row => decide (row.guid ∉ processed_ids))

/-- Normalization of one entry into a raw row, as done inside the tuple
comprehension at collector.py:96-100: the only fallible step is
`time_to_ts(row['published_parsed'])`. -/
def normalizeEntry (rss_id : String) (row : FeedEntry) : Except String RawNewsRecord :=
  match time_to_ts row.published_parsed with
  | .error e => .error e
  | .ok ts =>
    .ok ⟨row.title, ts, row.description, row.link, row.guid, row.media_thumbnail, rss_id⟩

/-- The comprehension at collector.py:96-100 evaluated left to right: the first
entry whose timestamp fails to parse raises and aborts the whole batch. -/
def normalize_entries (rss_id : String) : List FeedEntry → Except String (List RawNewsRecord)
  | [] => .ok []
  | row :: rest =>
    match normalizeEntry rss_id row with
    | .error e => .error e
    | .ok r =>
      match normalize_entries rss_id rest with
      | .error e => .error e
      | .ok rs => .ok (r :: rs)

/-- The distinguishable failures of `download_entries`: a fetch/transport
error, the `EOFError` raised at collector.py:92 when nothing is pending, and a
timestamp `parse` error propagated from `time_to_ts`. -/
inductive DlError where
  | fetchError : String → DlError
  | noPending : DlError
  | parseError : String → DlError
deriving DecidableEq, Repr

/-- Embeds `NewsCollector.download_entries` (collector.py:74-120).
`fetch_result` is the outcome of `feedparser.parse(feed_url)` reading
`feed.entries`; `st` is the state file; `io_ok` is the environment outcome of
the `save_state` write. On success it returns the built table rows together
with the state file after the `save_state(processed_ids + new_ids)` call at
collector.py:115; every failure re-raises (collector.py:118-120) leaving the
state file untouched. -/
def download_entries (rss_id : String) (fetch_result : Except String (List FeedEntry))
    (st : StateFile) (io_ok : Bool) :
    Except DlError (List RawNewsRecord × StateFile) :=
  match fetch_result with
  | .error e => .error (.fetchError e)
  | .ok entries =>
    let processed_ids := load_state st
    let unprocessed_entries := unprocessed_of processed_ids entries
    if unprocessed_entries.isEmpty then
      .error .noPending
    else
      match normalize_entries rss_id unprocessed_entries with
      | .error e => .error (.parseError e)
      | .ok rows =>
        let new_ids := rows.map RawNewsRecord.id
        .ok (rows, save_state (processed_ids ++ new_ids) st io_ok)

/-- Embeds `NewsCollector.create_press_releases_sources` (collector.py:122-134):
iterates the configured feeds in order, calling `download_entries` for each and
collecting a table source per feed. Each fetch outcome is paired with its feed
name in `feeds`. Any exception inside the loop is logged and re-raised, so the
first failing feed aborts the whole loop; the state file writes already done by
earlier successful iterations remain. The returned pair carries the result and
the state file as left on disk. -/
def create_press_releases_sources (feeds : List (String × Except String (List FeedEntry)))
    (st : StateFile) (io_ok : Bool) :
    Except DlError (List (List RawNewsRecord)) × StateFile :=
  match feeds with
  | [] => (.ok [], st)
  | (rss_id, fetch_result) :: rest =>
    match download_entries rss_id fetch_result st io_ok with
    | .error e => (.error e, st)
    | .ok (t, st') =>
      match create_press_releases_sources rest st' io_ok with
      | (.error e, st'') => (.error e, st'')
      | (.ok ts, st'') => (.ok (t :: ts), st'')

/-- One row of the curated news table: the projection at collector.py:142-150
keeps the columns title, published_time, description, link, id, thumbnail_url,
category. -/
structure CuratedNewsRecord where
  title : String
  published_time : DateTime6
  description : String
  link : String
  id : String
  thumbnail_url : Option String
  category : String
deriving DecidableEq, Repr

/-- Column names listed in the `ProjectNodeOptions` of `curate_news`
(collector.py:142-150), in source order. -/
def curatedProjectColumns : List String :=
  ["title", "published_time", "description", "link", "id", "thumbnail_url", "category"]

/-- The per-row effect of the `project` node in `curate_news`: each listed
field is read off the raw row unchanged. -/
def curate_row (r : RawNewsRecord) : CuratedNewsRecord :=
  ⟨r.title, r.published_time, r.description, r.link, r.id, r.thumbnail_url, r.category⟩

/-- Embeds `NewsCollector.curate_news` (collector.py:136-154) evaluated on a
table source: the Acero `project` declaration applied to every row of the
source table. -/
def curate_news (rows : List RawNewsRecord) : List CuratedNewsRecord :=
  rows.map curate_row

/-- `Actor` pydantic model (news_processor.py:20-22). -/
structure Actor where
  name : String
  role : String
deriving DecidableEq, Repr

/-- `EventResponse` pydantic model (news_processor.py:25-36): main actors,
other actors and an event category string. -/
structure EventResponse where
  main_actors : List Actor
  other_actors : List Actor
  category : String
deriving DecidableEq, Repr

/-- Behaviour of one `NewsProcessor.analyze_text` call together with the
exceptions the underlying client may raise (news_processor.py:64-114):
`.error` = an exception propagated out of the call, `.ok none` = the call
returned `None` (no tool call, or JSON/validation failure), `.ok (some r)` = a
structured result. The oracle maps the input text to this outcome. -/
abbrev AnalyzeOracle : Type := String → Except String (Option EventResponse)

/-- True when the enrichment call yields no structured result for a text:
either it raised or it returned `None`. -/
def analyze_failed (outcome : Except String (Option EventResponse)) : Bool :=
  match outcome with
  | .error _ => true
  | .ok none => true
  | .ok (some _) => false

/-- One row of the actors table built by `extract_actors`
(collector.py:208-213). -/
structure ActorRecord where
  news_id : String
  actor_name : String
  actor_role : String
  is_main_actor : Bool
deriving DecidableEq, Repr

/-- Column names of the actors table, in the order of the `pa.table` call at
collector.py:208-213. -/
def actorsTableColumns : List String :=
  ["news_id", "actor_name", "actor_role", "is_main_actor"]

/-- The text blob built at collector.py:182: `f"{title}\n{description}"`. -/
def article_text (title description : String) : String :=
  title ++ "\n" ++ description

/-- The body of the per-article loop of `extract_actors`
(collector.py:180-205) for one `(news_id, title, description)` row: calls the
enrichment oracle on the combined text; on a raised exception or a `None`
result it logs and `continue`s, contributing no rows; on a structured result
it appends one row per main actor (`is_main_actor = True`) then one per other
actor (`is_main_actor = False`), each carrying the article's `news_id`. -/
def extract_article (oracle : AnalyzeOracle) (r : CuratedNewsRecord) : List ActorRecord :=
  match oracle (article_text r.title r.description) with
  | .error _ => []
  | .ok none => []
  | .ok (some result) =>
    result.main_actors.map (fun a => ⟨r.id, a.name, a.role, true⟩)
      ++ result.other_actors.map (fun a => ⟨r.id, a.name, a.role, false⟩)

/-- Embeds `NewsCollector.extract_actors` (collector.py:156-217): iterates the
rows of the input table in order (the `zip` over the id, title and description
columns), accumulating the flattened actor lists, and builds the four-column
actors table. -/
def extract_actors (oracle : AnalyzeOracle) (rows : List CuratedNewsRecord) :
    List ActorRecord :=
  match rows with
  | [] => []
  | r :: rest => extract_article oracle r ++ extract_actors oracle rest

/-- The three Delta Lake tables written by `process_feeds`: `RAW_NEWS_PATH`,
`CURATED_NEWS_PATH` and `CURATED_ACTORS_PATH` (config.py), each append-only. -/
structure Stores where
  raw : List RawNewsRecord
  curated : List CuratedNewsRecord
  actors : List ActorRecord
deriving Repr

/-- Environment outcomes of the three `store` (Delta append) calls made for
one feed inside `process_feeds`: raw table, curated table, actors table. -/
structure StoreOutcome where
  raw_ok : Bool
  curated_ok : Bool
  actors_ok : Bool

/-- Embeds `NewsCollector.store` (collector.py:219-226) for one append: on
success the records are appended to the table, on failure the exception is
logged and re-raised. -/
def store {α : Type} (data : List α) (table : List α) (ok : Bool) :
    Except String (List α) :=
  if ok then .ok (table ++ data) else .error "Error storing data"

/-- The `for source in sources` loop body of `process_feeds`
(collector.py:232-240): append the raw table, curate, append the curated
table, extract actors, append the actors table; any failing append aborts the
run. `outcomes` supplies the environment outcome of each feed's three append
calls (missing entries mean success). -/
def process_sources (oracle : AnalyzeOracle) (sources : List (List RawNewsRecord))
    (outcomes : List StoreOutcome) (stores : Stores) : Except String Stores :=
  match sources with
  | [] => .ok stores
  | t :: rest =>
    let o := outcomes.headD ⟨true, true, true⟩
    match store t stores.raw o.raw_ok with
    | .error e => .error e
    | .ok raw' =>
      let curated_table := curate_news t
      match store curated_table stores.curated o.curated_ok with
      | .error e => .error e
      | .ok curated' =>
        let actors_table := extract_actors oracle curated_table
        match store actors_table stores.actors o.actors_ok with
        | .error e => .error e
        | .ok actors' =>
          process_sources oracle rest (outcomes.tail) ⟨raw', curated', actors'⟩

/-- Failures of a whole `process_feeds` run: an ingestion error re-raised from
`create_press_releases_sources`, or a storage append error. -/
inductive RunError where
  | dl : DlError → RunError
  | storage : String → RunError
deriving DecidableEq, Repr

/-- Embeds `NewsCollector.process_feeds` (collector.py:228-245): first builds
all feed sources (each `download_entries` call already saving the state file),
then stores raw, curated and actors tables per feed. The returned pair carries
the outcome and the state file as left on disk: note the state file writes
performed during `create_press_releases_sources` persist even when a later
storage append fails. -/
def process_feeds (oracle : AnalyzeOracle)
    (feeds : List (String × Except String (List FeedEntry)))
    (st : StateFile) (io_ok : Bool) (outcomes : List StoreOutcome)
    (stores : Stores) : Except RunError Stores × StateFile :=
  match create_press_releases_sources feeds st io_ok with
  | (.error e, st') => (.error (.dl e), st')
  | (.ok sources, st') =>
    match process_sources oracle sources outcomes stores with
    | .error e => (.error (.storage e), st')
    | .ok stores' => (.ok stores', st')

/-! ### Helper lemmas -/

theorem mem_unprocessed_iff (p : List String) (entries : List FeedEntry) (e : FeedEntry) :
    e ∈ unprocessed_of p entries ↔ e ∈ entries ∧ e.guid ∉ p := by
  simp [unprocessed_of, List.mem_filter]

theorem unprocessed_eq_nil (p : List String) (entries : List FeedEntry)
    (h : ∀ e ∈ entries, e.guid ∈ p) : unprocessed_of p entries = [] := by
  rw [unprocessed_of, List.filter_eq_nil_iff]
  intro e he
  simp [h e he]

theorem normalizeEntry_ok_id (rss_id : String) (e : FeedEntry) (r : RawNewsRecord)
    (h : normalizeEntry rss_id e = .ok r) : r.id = e.guid := by
  unfold normalizeEntry at h
  cases ht : time_to_ts e.published_parsed with
  | error m => rw [ht] at h; exact absurd h (by simp)
  | ok ts => rw [ht] at h; cases h; rfl

theorem normalize_entries_map_id (rss_id : String) :
    ∀ (l : List FeedEntry) (rows : List RawNewsRecord),
      normalize_entries rss_id l = .ok rows →
      rows.map RawNewsRecord.id = l.map FeedEntry.guid := by
  intro l
  induction l with
  | nil =>
    intro rows h
    unfold normalize_entries at h
    cases h
    rfl
  | cons e rest ih =>
    intro rows h
    unfold normalize_entries at h
    cases hn : normalizeEntry rss_id e with
    | error m => rw [hn] at h; exact absurd h (by simp)
    | ok r =>
      rw [hn] at h
      cases hr : normalize_entries rss_id rest with
      | error m => rw [hr] at h; exact absurd h (by simp)
      | ok rs =>
        rw [hr] at h
        cases h
        simp [normalizeEntry_ok_id rss_id e r hn, ih rs hr]

theorem download_entries_ok_elim (rss_id : String) (entries : List FeedEntry)
    (st : StateFile) (io_ok : Bool) (rows : List RawNewsRecord) (st' : StateFile)
    (h : download_entries rss_id (.ok entries) st io_ok = .ok (rows, st')) :
    normalize_entries rss_id (unprocessed_of (load_state st) entries) = .ok rows ∧
      st' = save_state (load_state st ++ rows.map RawNewsRecord.id) st io_ok := by
  simp only [download_entries] at h
  split at h
  · exact absurd h (by simp)
  · split at h
    · exact absurd h (by simp)
    · next rows0 heq =>
      rw [Except.ok.injEq, Prod.mk.injEq] at h
      obtain ⟨h1, h2⟩ := h
      subst h1
      exact ⟨heq, h2.symm⟩

theorem normalize_entries_error_of_mem (rss_id : String) (l : List FeedEntry)
    (e : FeedEntry) (he : e ∈ l) (msg : String)
    (hfail : time_to_ts e.published_parsed = .error msg) :
    ∃ m, normalize_entries rss_id l = .error m := by
  induction l with
  | nil => cases he
  | cons a rest ih =>
    rcases List.mem_cons.mp he with rfl | hmem
    · exact ⟨msg, by simp [normalize_entries, normalizeEntry, hfail]⟩
    · cases hn : normalizeEntry rss_id a with
      | error m => exact ⟨m, by simp [normalize_entries, hn]⟩
      | ok r =>
        obtain ⟨m, hm⟩ := ih hmem
        exact ⟨m, by simp [normalize_entries, hn, hm]⟩

/-! ### Claim theorems -/

/-- Claim C1: idempotence of ingestion. If `download_entries` completes
successfully once (its state write included), then running it again on the
same feed contents against the state file it left behind filters out every
entry and raises the no-pending-entries signal (`EOFError`), producing no
batch. -/
theorem C1_ingest_idempotent (rss_id rss_id2 : String) (entries : List FeedEntry)
    (st : StateFile) (rows : List RawNewsRecord) (st' : StateFile)
    (h : download_entries rss_id (.ok entries) st true = .ok (rows, st')) :
    download_entries rss_id2 (.ok entries) st' true = .error .noPending := by
  obtain ⟨hn, hst⟩ := download_entries_ok_elim rss_id entries st true rows st' h
  have hids : rows.map RawNewsRecord.id
      = (unprocessed_of (load_state st) entries).map FeedEntry.guid :=
    normalize_entries_map_id rss_id _ rows hn
  have hload : load_state st'
      = load_state st ++ (unprocessed_of (load_state st) entries).map FeedEntry.guid := by
    rw [hst, hids]; rfl
  have hnil : unprocessed_of (load_state st') entries = [] := by
    apply unprocessed_eq_nil
    intro e he
    rw [hload, List.mem_append]
    by_cases hg : e.guid ∈ load_state st
    · exact Or.inl hg
    · refine Or.inr ?_
      exact List.mem_map_of_mem FeedEntry.guid ((mem_unprocessed_iff _ _ _).mpr ⟨he, hg⟩)
  simp [download_entries, hnil]

/-- Witness for C1 at a concrete feed: one entry with guid `g1`, initially
empty state. -/
theorem C1_ingest_idempotent_witness :
    download_entries "Business"
        (.ok [⟨"g1", "t1", "d1", "l1", some [2024, 1, 2, 3, 4, 5, 0, 0, 0], none⟩])
        none true
      = .ok ([⟨"t1", ⟨2024, 1, 2, 3, 4, 5⟩, "d1", "l1", "g1", none, "Business"⟩],
          some (some ["g1"])) ∧
    download_entries "Business"
        (.ok [⟨"g1", "t1", "d1", "l1", some [2024, 1, 2, 3, 4, 5, 0, 0, 0], none⟩])
        (some (some ["g1"])) true
      = .error .noPending := by
  refine ⟨rfl, ?_⟩
  exact C1_ingest_idempotent "Business" "Business"
    [⟨"g1", "t1", "d1", "l1", some [2024, 1, 2, 3, 4, 5, 0, 0, 0], none⟩]
    none _ _ rfl

/-- Claim C5: state-set invariants. When `download_entries` succeeds with its
state write succeeding, and the prior persisted set and the feed's guids are
duplicate-free, the newly persisted sequence is the old sequence with the
newly discovered guids appended in discovery order (so it never shrinks), it
has no duplicates, the appended portion is a subsequence of the feed's guid
sequence, and no returned raw row carries a previously seen id. -/
theorem C5_state_invariants (rss_id : String) (entries : List FeedEntry)
    (st : StateFile) (rows : List RawNewsRecord) (st' : StateFile)
    (hnd_state : (load_state st).Nodup)
    (hnd_feed : (entries.map FeedEntry.guid).Nodup)
    (h : download_entries rss_id (.ok entries) st true = .ok (rows, st')) :
    load_state st'
        = load_state st ++ (unprocessed_of (load_state st) entries).map FeedEntry.guid ∧
      (load_state st').Nodup ∧
      List.Sublist ((unprocessed_of (load_state st) entries).map FeedEntry.guid)
        (entries.map FeedEntry.guid) ∧
      ∀ r ∈ rows, r.id ∉ load_state st := by
  obtain ⟨hn, hst⟩ := download_entries_ok_elim rss_id entries st true rows st' h
  have hids : rows.map RawNewsRecord.id
      = (unprocessed_of (load_state st) entries).map FeedEntry.guid :=
    normalize_entries_map_id rss_id _ rows hn
  have hload : load_state st'
      = load_state st ++ (unprocessed_of (load_state st) entries).map FeedEntry.guid := by
    rw [hst, hids]; rfl
  have hsub : List.Sublist ((unprocessed_of (load_state st) entries).map FeedEntry.guid)
      (entries.map FeedEntry.guid) :=
    List.Sublist.map FeedEntry.guid (List.filter_sublist entries)
  have hnew_not_old : ∀ g ∈ (unprocessed_of (load_state st) entries).map FeedEntry.guid,
      g ∉ load_state st := by
    intro g hg
    obtain ⟨e, he, rfl⟩ := List.mem_map.mp hg
    exact ((mem_unprocessed_iff _ _ _).mp he).2
  refine ⟨hload, ?_, hsub, ?_⟩
  · rw [hload]
    exact List.Nodup.append hnd_state (hsub.nodup hnd_feed)
      (fun g hgo hgn => hnew_not_old g hgn hgo)
  · intro r hr
    have : r.id ∈ rows.map RawNewsRecord.id := List.mem_map_of_mem RawNewsRecord.id hr
    rw [hids] at this
    exact hnew_not_old r.id this

/-- Witness for C5: one new entry against an empty state file. -/
theorem C5_state_invariants_witness :
    load_state (some (some ["g1"]))
        = load_state none
            ++ (unprocessed_of (load_state none)
                [⟨"g1", "t1", "d1", "l1", some [2024, 1, 2, 3, 4, 5, 0, 0, 0], none⟩]).map
              FeedEntry.guid ∧
      (load_state (some (some ["g1"]))).Nodup ∧
      List.Sublist
        ((unprocessed_of (load_state none)
            [⟨"g1", "t1", "d1", "l1", some [2024, 1, 2, 3, 4, 5, 0, 0, 0], none⟩]).map
          FeedEntry.guid)
        (([⟨"g1", "t1", "d1", "l1", some [2024, 1, 2, 3, 4, 5, 0, 0, 0], none⟩] :
            List FeedEntry).map FeedEntry.guid) ∧
      ∀ r ∈ ([⟨"t1", ⟨2024, 1, 2, 3, 4, 5⟩, "d1", "l1", "g1", none, "Business"⟩] :
          List RawNewsRecord), r.id ∉ load_state none :=
  C5_state_invariants "Business"
    [⟨"g1", "t1", "d1", "l1", some [2024, 1, 2, 3, 4, 5, 0, 0, 0], none⟩]
    none
    [⟨"t1", ⟨2024, 1, 2, 3, 4, 5⟩, "d1", "l1", "g1", none, "Business"⟩]
    (some (some ["g1"])) (by decide) (by decide) rfl

/-- Claim C8: a timestamp parse failure for any single pending entry aborts
the whole feed batch. If some entry that passed the state filter has an
unparsable `published_parsed`, the ingestion of that feed raises a parse
error: no table rows are produced and the state file is returned exactly as
it was. -/
theorem C8_parse_failure_aborts_batch (rss_id : String) (entries : List FeedEntry)
    (st : StateFile) (io_ok : Bool) (e : FeedEntry) (msg : String)
    (he : e ∈ unprocessed_of (load_state st) entries)
    (hfail : time_to_ts e.published_parsed = .error msg) :
    ∃ m, create_press_releases_sources [(rss_id, .ok entries)] st io_ok
        = (.error (.parseError m), st) := by
  obtain ⟨m, hm⟩ := normalize_entries_error_of_mem rss_id
    (unprocessed_of (load_state st) entries) e he msg hfail
  have hne : (unprocessed_of (load_state st) entries).isEmpty = false := by
    rcases hemp : unprocessed_of (load_state st) entries with _ | ⟨a, rest⟩
    · rw [hemp] at he; cases he
    · rfl
  refine ⟨m, ?_⟩
  simp [create_press_releases_sources, download_entries, hne, hm]

/-- Witness for C8: one pending entry whose `published_parsed` is absent. -/
theorem C8_parse_failure_aborts_batch_witness :
    ∃ m, create_press_releases_sources
        [("Business", .ok [⟨"g1", "t1", "d1", "l1", none, none⟩])] none true
      = (.error (.parseError m), none) :=
  C8_parse_failure_aborts_batch "Business"
    [⟨"g1", "t1", "d1", "l1", none, none⟩] none true
    ⟨"g1", "t1", "d1", "l1", none, none⟩
    "TypeError: NoneType is not subscriptable" (by decide) rfl

/-- Claim C10: `save_state` swallows write failures. The underlying file write
raises `IOError`, `save_state` returns normally leaving the file unchanged,
and any entry whose guid was not yet persisted still passes the state filter
of the next run, so it is re-ingested (at-least-once). -/
theorem C10_save_state_swallows_ioerror (ids : List String) (st : StateFile)
    (entries : List FeedEntry) (e : FeedEntry)
    (he : e ∈ entries) (hnew : e.guid ∉ load_state st) :
    write_state_file ids false = .error "IOError" ∧
      save_state ids st false = st ∧
      e ∈ unprocessed_of (load_state st) entries :=
  ⟨rfl, rfl, (mem_unprocessed_iff _ _ _).mpr ⟨he, hnew⟩⟩

/-- Witness for C10: a failed write of `["g1"]` over an empty state file, with
the entry `g1` still pending afterwards. -/
theorem C10_save_state_swallows_ioerror_witness :
    write_state_file ["g1"] false = .error "IOError" ∧
      save_state ["g1"] none false = none ∧
      (⟨"g1", "t1", "d1", "l1", none, none⟩ : FeedEntry)
        ∈ unprocessed_of (load_state none) [⟨"g1", "t1", "d1", "l1", none, none⟩] :=
  C10_save_state_swallows_ioerror ["g1"] none
    [⟨"g1", "t1", "d1", "l1", none, none⟩]
    ⟨"g1", "t1", "d1", "l1", none, none⟩ (by decide) (by decide)

/-- Claim C2 (violated by the code): `download_entries` saves the state file
at collector.py:115, before `process_feeds` performs any storage append. Here
a run over one feed with one new entry `g1` whose raw-table append fails still
leaves the state file containing `g1`: the guid is persisted as processed
although no batch was ever durably appended. -/
theorem C2_state_saved_before_store_append :
    process_feeds (fun _ => .ok none)
        [("Business",
          .ok [⟨"g1", "t1", "d1", "l1", some [2024, 1, 2, 3, 4, 5, 0, 0, 0], none⟩])]
        none true [⟨false, true, true⟩] ⟨[], [], []⟩
      = (.error (.storage "Error storing data"), some (some ["g1"])) := rfl

/-- Claim C3 (violated by the code): `create_press_releases_sources` re-raises
the first exception out of its feed loop, aborting the whole run. With a first
feed whose fetch fails and a healthy second feed, the run ends with the fetch
error and the second feed is never ingested (the state file shows no trace of
`g2`); likewise, a first feed with no pending entries aborts the run with the
no-pending signal instead of skipping to the second feed. -/
theorem C3_one_feed_failure_aborts_run :
    create_press_releases_sources
        [("Business", .error "connection refused"),
         ("Health",
          .ok [⟨"g2", "t2", "d2", "l2", some [2024, 1, 2, 3, 4, 5, 0, 0, 0], none⟩])]
        none true
      = (.error (.fetchError "connection refused"), none) ∧
    create_press_releases_sources
        [("Business",
          .ok [⟨"g0", "t0", "d0", "l0", some [2024, 1, 2, 3, 4, 5, 0, 0, 0], none⟩]),
         ("Health",
          .ok [⟨"g2", "t2", "d2", "l2", some [2024, 1, 2, 3, 4, 5, 0, 0, 0], none⟩])]
        (some (some ["g0"])) true
      = (.error .noPending, some (some ["g0"])) := ⟨rfl, rfl⟩

/-- Claim C4: per-article failure isolation in actor extraction. If the
enrichment call raises or returns no structured result for the third article
of a batch of five, that article contributes no actor rows, and the extraction
still returns normally with exactly the rows of the four remaining articles,
in order. -/
theorem C4_actor_extraction_isolates_failure (oracle : AnalyzeOracle)
    (r1 r2 r3 r4 r5 : CuratedNewsRecord)
    (hfail : analyze_failed (oracle (article_text r3.title r3.description)) = true) :
    extract_article oracle r3 = [] ∧
      extract_actors oracle [r1, r2, r3, r4, r5]
        = extract_article oracle r1 ++ extract_article oracle r2
            ++ extract_article oracle r4 ++ extract_article oracle r5 := by
  have h3 : extract_article oracle r3 = [] := by
    unfold extract_article
    cases ho : oracle (article_text r3.title r3.description) with
    | error m => rfl
    | ok o =>
      cases o with
      | none => rfl
      | some res =>
        rw [ho] at hfail
        exact absurd hfail (by simp [analyze_failed])
  exact ⟨h3, by simp [extract_actors, h3]⟩

/-- Witness for C4: a batch of five one-field articles where the oracle raises
exactly on the third article's text. -/
theorem C4_actor_extraction_isolates_failure_witness :
    extract_article
        (fun t => if t = "t3\nd3" then .error "APIConnectionError"
          else .ok (some ⟨[⟨"Acme Corp", "buyer"⟩], [], "Others"⟩))
        ⟨"t3", ⟨2024, 1, 2, 3, 4, 5⟩, "d3", "l3", "g3", none, "Business"⟩ = [] ∧
      extract_actors
          (fun t => if t = "t3\nd3" then .error "APIConnectionError"
            else .ok (some ⟨[⟨"Acme Corp", "buyer"⟩], [], "Others"⟩))
          [⟨"t1", ⟨2024, 1, 2, 3, 4, 5⟩, "d1", "l1", "g1", none, "Business"⟩,
           ⟨"t2", ⟨2024, 1, 2, 3, 4, 5⟩, "d2", "l2", "g2", none, "Business"⟩,
           ⟨"t3", ⟨2024, 1, 2, 3, 4, 5⟩, "d3", "l3", "g3", none, "Business"⟩,
           ⟨"t4", ⟨2024, 1, 2, 3, 4, 5⟩, "d4", "l4", "g4", none, "Business"⟩,
           ⟨"t5", ⟨2024, 1, 2, 3, 4, 5⟩, "d5", "l5", "g5", none, "Business"⟩]
        = extract_article
              (fun t => if t = "t3\nd3" then .error "APIConnectionError"
                else .ok (some ⟨[⟨"Acme Corp", "buyer"⟩], [], "Others"⟩))
              ⟨"t1", ⟨2024, 1, 2, 3, 4, 5⟩, "d1", "l1", "g1", none, "Business"⟩
            ++ extract_article
              (fun t => if t = "t3\nd3" then .error "APIConnectionError"
                else .ok (some ⟨[⟨"Acme Corp", "buyer"⟩], [], "Others"⟩))
              ⟨"t2", ⟨2024, 1, 2, 3, 4, 5⟩, "d2", "l2", "g2", none, "Business"⟩
            ++ extract_article
              (fun t => if t = "t3\nd3" then .error "APIConnectionError"
                else .ok (some ⟨[⟨"Acme Corp", "buyer"⟩], [], "Others"⟩))
              ⟨"t4", ⟨2024, 1, 2, 3, 4, 5⟩, "d4", "l4", "g4", none, "Business"⟩
            ++ extract_article
              (fun t => if t = "t3\nd3" then .error "APIConnectionError"
                else .ok (some ⟨[⟨"Acme Corp", "buyer"⟩], [], "Others"⟩))
              ⟨"t5", ⟨2024, 1, 2, 3, 4, 5⟩, "d5", "l5", "g5", none, "Business"⟩ :=
  C4_actor_extraction_isolates_failure
    (fun t => if t = "t3\nd3" then .error "APIConnectionError"
      else .ok (some ⟨[⟨"Acme Corp", "buyer"⟩], [], "Others"⟩))
    ⟨"t1", ⟨2024, 1, 2, 3, 4, 5⟩, "d1", "l1", "g1", none, "Business"⟩
    ⟨"t2", ⟨2024, 1, 2, 3, 4, 5⟩, "d2", "l2", "g2", none, "Business"⟩
    ⟨"t3", ⟨2024, 1, 2, 3, 4, 5⟩, "d3", "l3", "g3", none, "Business"⟩
    ⟨"t4", ⟨2024, 1, 2, 3, 4, 5⟩, "d4", "l4", "g4", none, "Business"⟩
    ⟨"t5", ⟨2024, 1, 2, 3, 4, 5⟩, "d5", "l5", "g5", none, "Business"⟩
    rfl

/-- Claim C6: `curate_news` is a pure projection. For any raw batch it keeps
every row (no filtering), projects onto exactly the seven columns of the raw
schema, and every retained field of every curated row equals the
corresponding raw field; the empty batch maps to the empty batch. -/
theorem C6_curate_pure_projection (rows : List RawNewsRecord) :
    (curate_news rows).length = rows.length ∧
      curatedProjectColumns
        = ["title", "published_time", "description", "link", "id",
           "thumbnail_url", "category"] ∧
      curatedProjectColumns = rawTableColumns ∧
      curatedProjectColumns.length = 7 ∧
      curatedProjectColumns.Nodup ∧
      curate_news ([] : List RawNewsRecord) = [] ∧
      (curate_news rows).map CuratedNewsRecord.title = rows.map RawNewsRecord.title ∧
      (curate_news rows).map CuratedNewsRecord.published_time
        = rows.map RawNewsRecord.published_time ∧
      (curate_news rows).map CuratedNewsRecord.description
        = rows.map RawNewsRecord.description ∧
      (curate_news rows).map CuratedNewsRecord.link = rows.map RawNewsRecord.link ∧
      (curate_news rows).map CuratedNewsRecord.id = rows.map RawNewsRecord.id ∧
      (curate_news rows).map CuratedNewsRecord.thumbnail_url
        = rows.map RawNewsRecord.thumbnail_url ∧
      (curate_news rows).map CuratedNewsRecord.category
        = rows.map RawNewsRecord.category := by
  refine ⟨by simp [curate_news], rfl, rfl, rfl, by decide, rfl, ?_, ?_, ?_, ?_, ?_, ?_, ?_⟩
  all_goals
    simp [curate_news, curate_row, List.map_map, Function.comp]

/-- Claim C7: actor mapping for a successful enrichment call. When the oracle
returns a structured result for an article's combined text (title, line
break, description), the article's rows are exactly one row per main actor
with `is_main_actor = true` followed by one row per other actor with
`is_main_actor = false`; every produced row carries the article's id; and the
outcome depends on the oracle only through its value at that combined text. -/
theorem C7_actor_mapping (oracle : AnalyzeOracle) (r : CuratedNewsRecord)
    (resp : EventResponse)
    (h : oracle (article_text r.title r.description) = .ok (some resp)) :
    extract_article oracle r
        = resp.main_actors.map (fun a => ⟨r.id, a.name, a.role, true⟩)
            ++ resp.other_actors.map (fun a => ⟨r.id, a.name, a.role, false⟩) ∧
      (∀ rec ∈ extract_article oracle r, rec.news_id = r.id) ∧
      ∀ oracle2 : AnalyzeOracle,
        oracle2 (article_text r.title r.description)
            = oracle (article_text r.title r.description) →
          extract_article oracle2 r = extract_article oracle r := by
  have hmain : extract_article oracle r
      = resp.main_actors.map (fun a => ⟨r.id, a.name, a.role, true⟩)
          ++ resp.other_actors.map (fun a => ⟨r.id, a.name, a.role, false⟩) := by
    unfold extract_article
    rw [h]
  refine ⟨hmain, ?_, ?_⟩
  · intro rec hrec
    rw [hmain] at hrec
    rcases List.mem_append.mp hrec with hm | hm <;>
      · obtain ⟨a, _, rfl⟩ := List.mem_map.mp hm
        rfl
  · intro oracle2 h2
    unfold extract_article
    rw [h2]

/-- Witness for C7: an oracle answering with one main and one other actor. -/
theorem C7_actor_mapping_witness :
    extract_article
        (fun _ => .ok (some ⟨[⟨"Acme Corp", "buyer"⟩], [⟨"Bob", "analyst"⟩], "Others"⟩))
        ⟨"t1", ⟨2024, 1, 2, 3, 4, 5⟩, "d1", "l1", "g1", none, "Business"⟩
        = ([⟨"Acme Corp", "buyer"⟩] : List Actor).map
              (fun a => ⟨"g1", a.name, a.role, true⟩)
            ++ ([⟨"Bob", "analyst"⟩] : List Actor).map
              (fun a => ⟨"g1", a.name, a.role, false⟩) ∧
      (∀ rec ∈ extract_article
          (fun _ => .ok (some ⟨[⟨"Acme Corp", "buyer"⟩], [⟨"Bob", "analyst"⟩], "Others"⟩))
          ⟨"t1", ⟨2024, 1, 2, 3, 4, 5⟩, "d1", "l1", "g1", none, "Business"⟩,
        rec.news_id = "g1") ∧
      ∀ oracle2 : AnalyzeOracle,
        oracle2 (article_text "t1" "d1")
            = (fun _ => .ok (some
                ⟨[⟨"Acme Corp", "buyer"⟩], [⟨"Bob", "analyst"⟩], "Others"⟩) :
              AnalyzeOracle) (article_text "t1" "d1") →
          extract_article oracle2
              ⟨"t1", ⟨2024, 1, 2, 3, 4, 5⟩, "d1", "l1", "g1", none, "Business"⟩
            = extract_article
              (fun _ => .ok (some
                ⟨[⟨"Acme Corp", "buyer"⟩], [⟨"Bob", "analyst"⟩], "Others"⟩))
              ⟨"t1", ⟨2024, 1, 2, 3, 4, 5⟩, "d1", "l1", "g1", none, "Business"⟩ :=
  C7_actor_mapping
    (fun _ => .ok (some ⟨[⟨"Acme Corp", "buyer"⟩], [⟨"Bob", "analyst"⟩], "Others"⟩))
    ⟨"t1", ⟨2024, 1, 2, 3, 4, 5⟩, "d1", "l1", "g1", none, "Business"⟩
    ⟨[⟨"Acme Corp", "buyer"⟩], [⟨"Bob", "analyst"⟩], "Others"⟩ rfl

/-- Rewrites only the `category` field of a structured enrichment result. -/
def set_category (f : String → String) (r : EventResponse) : EventResponse :=
  ⟨r.main_actors, r.other_actors, f r.category⟩

/-- Claim C9: the enrichment `category` is extracted but never persisted. The
actors table built by `extract_actors` has exactly the four columns
`news_id`, `actor_name`, `actor_role`, `is_main_actor` — no `category`
column — and its rows are unchanged under any rewriting of the `category`
field of every oracle answer. -/
theorem C9_category_not_persisted :
    actorsTableColumns = ["news_id", "actor_name", "actor_role", "is_main_actor"] ∧
      actorsTableColumns.length = 4 ∧
      "category" ∉ actorsTableColumns ∧
      ∀ (oracle : AnalyzeOracle) (f : String → String) (rows : List CuratedNewsRecord),
        extract_actors (fun t => (oracle t).map (Option.map (set_category f))) rows
          = extract_actors oracle rows := by
  refine ⟨rfl, rfl, by decide, ?_⟩
  intro oracle f rows
  induction rows with
  | nil => rfl
  | cons r rest ih =>
    have harticle : extract_article (fun t => (oracle t).map (Option.map (set_category f))) r
        = extract_article oracle r := by
      unfold extract_article
      cases ho : oracle (article_text r.title r.description) with
      | error m => simp [ho, Except.map]
      | ok o =>
        cases o with
        | none => simp [ho, Except.map]
        | some resp => simp [ho, Except.map, set_category]
    simp [extract_actors, harticle, ih]

end NewsPipeline
